import Mathlib

/-!
Shallow embedding of the CSV-backed service layer of the
SneakerCanvasBD invoice/inventory manager (`services/*.py`), together
with theorems settling the specification claims about it.

Modelling conventions:
* a CSV-backed store is a `List` of typed row structures; every
  mutating service operation is a pure function from the old row list
  (and its inputs) to the returned value and the new row list;
* money and numeric cells are exact rationals (`ℚ`) and integer
  counters are `Int`; the one place where IEEE-754 special values are
  observable (pandas float division by zero in `get_profit_by_sku`)
  is modelled with an explicit `PFloat` type carrying `nan`/`±inf`,
  whose division-by-zero behaviour matches numpy exactly (the claim
  in question does not depend on rounding, only on these specials);
* pandas boolean-mask updates (`df.loc[mask, col] = v`) are modelled
  by mapping a conditional update over the row list, and scalar reads
  (`.iloc[0]`) by `List.find?` on the mask predicate.
-/

/-! ## Inventory store (`services/inventory_service.py`) -/

/-- Row of `inventory.csv` (schema `InventoryService.COLUMNS`). -/
structure Product where
  product_id : String
  name : String
  description : String
  size : String
  price : ℚ
  buying_price : ℚ
  stock : Int
  added_date : String
  sold_quantity : Int
deriving DecidableEq, Repr

/-- Input dictionary accepted by `InventoryService.add_product`; the
`data.get(key, default)` defaults are already applied, and a missing or
falsy `product_id` is represented by the empty string (Python treats
`None` and `""` alike at the `product.get('product_id') or ...` test).
The `size` field holds the result of the `str(...)` coercion the code
applies before comparing. -/
structure ProductInput where
  product_id : String
  name : String
  description : String
  size : String
  price : ℚ
  buying_price : ℚ
  stock : Int
  added_date : String
  sold_quantity : Int
deriving DecidableEq, Repr

/-- Mask `(df['name'] == name) & (df['size'] == str(size))` used by the
name+size keyed operations. -/
def keyMatch (name size : String) (r : Product) : Bool :=
  r.name == name && r.size == size

/-- Decimal rendering zero-padded on the left to `width` characters,
as Python's `f"{n:0`width`d}"` renders a non-negative integer. -/
def padNum (width : Nat) (n : Nat) : String :=
  let s := toString n
  String.mk (List.replicate (width - s.length) '0') ++ s

/-- Product id of the form `SC-SKU-NNNNN` for probe counter `n`. -/
def mkSkuId (n : Nat) : String :=
  "SC-SKU-" ++ padNum 5 n

/-- Model of `InventoryService.generate_product_id`: sequential probing
of `SC-SKU-00001`, `SC-SKU-00002`, ... returning the first id not
already present.  The source's `while True` loop always terminates by
counter `rows.length + 1` (the candidate ids are pairwise distinct and
there are only `rows.length` ids to collide with), so probing that
finite range is an exact model; the fallback arm is unreachable. -/
def generate_product_id (rows : List Product) : String :=
  let existing := rows.map (·.product_id)
  ((((List.range (rows.length + 1)).map (fun i => mkSkuId (i + 1))).find?
      (fun c => !(existing.contains c))).getD (mkSkuId (rows.length + 2)))

/-- Model of `InventoryService.add_product`: upsert keyed by
`(name, size)`.  On a key match the first matched row supplies the
existing `product_id` (a fresh one is generated and written to the
matched rows only when that id is empty) and `stock`, `price`,
`buying_price`, `description` are overwritten on every matched row;
otherwise a new row is appended with a given-or-generated id.
Returns `((success, product_id), new rows)`. -/
def add_product (rows : List Product) (p : ProductInput) :
    (Bool × String) × List Product :=
  match rows.find? (keyMatch p.name p.size) with
  | some first =>
      let pid := if first.product_id = "" then generate_product_id rows
                 else first.product_id
      ((true, pid),
        rows.map (fun r =>
          if keyMatch p.name p.size r then
            { r with
              product_id := if first.product_id = "" then pid else r.product_id,
              stock := p.stock,
              price := p.price,
              buying_price := p.buying_price,
              description := p.description }
          else r))
  | none =>
      let pid := if p.product_id = "" then generate_product_id rows
                 else p.product_id
      ((true, pid),
        rows ++ [{ product_id := pid,
                   name := p.name,
                   description := p.description,
                   size := p.size,
                   price := p.price,
                   buying_price := p.buying_price,
                   stock := p.stock,
                   added_date := p.added_date,
                   sold_quantity := p.sold_quantity }])

/-- Model of `InventoryService.delete_product`: keeps the rows whose
`product_id` differs and reports `True` unconditionally. -/
def delete_product (rows : List Product) (pid : String) :
    Bool × List Product :=
  (true, rows.filter (fun r => r.product_id != pid))

/-- Model of `InventoryService.reduce_stock`.  The current stock and
sold quantity are read from the first matched row (`.iloc[0]`), the new
stock is floored at zero with `max(0, current - quantity)`, and both
new values are written to every matched row, mirroring the
`df.loc[mask, ...] = value` broadcasts.  With no matched row the call
returns `(False, 0)` and leaves the store untouched. -/
def reduce_stock (rows : List Product) (name size : String) (quantity : Int) :
    (Bool × Int) × List Product :=
  match rows.find? (keyMatch name size) with
  | none => ((false, 0), rows)
  | some first =>
      let new_stock := max 0 (first.stock - quantity)
      let new_sold := first.sold_quantity + quantity
      ((true, new_stock),
        rows.map (fun r =>
          if keyMatch name size r then
            { r with stock := new_stock, sold_quantity := new_sold }
          else r))

/-- State reached after a sequence of `reduce_stock` calls, each call
given as `(name, size, quantity)`. -/
def applyReduceCalls (rows : List Product)
    (calls : List (String × String × Int)) : List Product :=
  calls.foldl (fun rs c => (reduce_stock rs c.1 c.2.1 c.2.2).2) rows

/-! ## Profitability report (`InventoryService.get_profit_by_sku`)

The report divides by the selling price, so IEEE-754 special values
become observable.  `PFloat` records a numpy double as either a `nan`,
a signed infinity, or an exact finite value; on the operations the
report performs (subtraction and multiplication of finite cell values,
one division, `fillna`) this is an exact model of numpy semantics:
finite-by-finite division only produces a special value when the
divisor is zero (`0/0 = nan`, `x/0 = ±inf` by the sign of `x`), and
`fillna(0)` replaces `nan` — and only `nan` — by `0`. -/

/-- Value of a numpy float64 cell: `nan`, a signed infinity (`inf true`
is `+inf`), or a finite value taken exact. -/
inductive PFloat where
  | nan : PFloat
  | inf : Bool → PFloat
  | fin : ℚ → PFloat
deriving DecidableEq, Repr

/-- Division of two finite numpy floats: zero divisor gives `nan` on a
zero dividend and a signed infinity otherwise. -/
def pdiv (a b : ℚ) : PFloat :=
  if b = 0 then (if a = 0 then PFloat.nan else PFloat.inf (0 < a))
  else PFloat.fin (a / b)

/-- Multiplication of a numpy float by the positive finite constant
`100` used for the percentage scaling: it preserves `nan` and the sign
of an infinity. -/
def pscale100 : PFloat → PFloat
  | PFloat.nan => PFloat.nan
  | PFloat.inf s => PFloat.inf s
  | PFloat.fin q => PFloat.fin (q * 100)

/-- Model of `Series.fillna(0)`: replaces `nan` (and only `nan`) by 0;
infinities pass through unchanged. -/
def fillna0 : PFloat → PFloat
  | PFloat.nan => PFloat.fin 0
  | x => x

/-- Record produced per product by `get_profit_by_sku`. -/
structure ProfitRec where
  product_id : String
  name : String
  size : String
  price : ℚ
  buying_price : ℚ
  sold_quantity : Int
  unit_profit : ℚ
  total_profit : ℚ
  margin_pct : PFloat
deriving DecidableEq, Repr

/-- Model of `InventoryService.get_profit_by_sku`: per row,
`unit_profit = price - buying_price`,
`total_profit = unit_profit * sold_quantity`, and
`margin_pct = (unit_profit / price * 100).fillna(0)`. -/
def get_profit_by_sku (rows : List Product) : List ProfitRec :=
  rows.map (fun r =>
    let unit : ℚ := r.price - r.buying_price
    { product_id := r.product_id,
      name := r.name,
      size := r.size,
      price := r.price,
      buying_price := r.buying_price,
      sold_quantity := r.sold_quantity,
      unit_profit := unit,
      total_profit := unit * (r.sold_quantity : ℚ),
      margin_pct := fillna0 (pscale100 (pdiv unit r.price)) })

/-! ## Invoice store (`services/invoice_service.py`) -/

/-- Row of `invoices.csv` (schema `InvoiceService.COLUMNS`). -/
structure InvoiceRecord where
  invoice_number : String
  date : String
  customer_name : String
  customer_phone : String
  customer_address : String
  subtotal : ℚ
  discount : ℚ
  delivery : ℚ
  grand_total : ℚ
  payment_method : String
  transaction_id : String
  items_json : String
  status : String
  original_invoice_no : String
  hash : String
deriving DecidableEq, Repr

/-- Line item of an invoice (`{name, size, qty, price}` dictionary). -/
structure Item where
  name : String
  size : String
  qty : ℚ
  price : ℚ
deriving DecidableEq, Repr

/-- Input dictionary accepted by `InvoiceService.save_invoice`, with
the `data.get(key, default)` defaults already applied. -/
structure InvoiceData where
  invoice_number : String
  date : String
  customer_name : String
  customer_phone : String
  customer_address : String
  subtotal : ℚ
  discount : ℚ
  delivery : ℚ
  grand_total : ℚ
  payment_method : String
  transaction_id : String
  products : List Item
  status : String
  original_invoice_no : String
deriving DecidableEq, Repr

/-- Serialization `str(data.get('products', []))` of the line-item
list, mirroring Python's literal rendering of a list of dicts (the
numeric fields are rendered by `toString` on `ℚ`, which differs
textually from Python's float rendering; every claim consumes the
serialization only through equality, which any fixed rendering
respects). -/
def itemRepr (it : Item) : String :=
  "\x7b'name': '" ++ it.name ++ "', 'size': '" ++ it.size ++
  "', 'qty': " ++ toString it.qty ++ ", 'price': " ++ toString it.price ++ "\x7d"

/-- Python `str` of the whole products list. -/
def itemsRepr (items : List Item) : String :=
  "[" ++ String.intercalate ", " (items.map itemRepr) ++ "]"

/-- Model of `InvoiceService._compute_hash`: the code joins the three
fields with `|` and applies `hashlib.md5(...).hexdigest()[:12]`, a
fixed pure function of the joined string; that digest-prefix function
is the parameter `md5_12`, so every theorem quantifying over `md5_12`
holds for the actual digest in particular. -/
def compute_hash (md5_12 : String → String)
    (customer items date : String) : String :=
  md5_12 (customer ++ "|" ++ items ++ "|" ++ date)

/-- Model of `InvoiceService.detect_duplicate`: first stored row whose
`hash` column equals the probe (`matching.iloc[0]`). -/
def detect_duplicate (store : List InvoiceRecord) (h : String) :
    Option InvoiceRecord :=
  store.find? (fun r => r.hash == h)

/-- Row assembled by `InvoiceService.save_invoice` before the CSV
append: the caller's fields verbatim, the serialized items, and the
computed hash. -/
def invoice_row (md5_12 : String → String) (data : InvoiceData) :
    InvoiceRecord :=
  { invoice_number := data.invoice_number,
    date := data.date,
    customer_name := data.customer_name,
    customer_phone := data.customer_phone,
    customer_address := data.customer_address,
    subtotal := data.subtotal,
    discount := data.discount,
    delivery := data.delivery,
    grand_total := data.grand_total,
    payment_method := data.payment_method,
    transaction_id := data.transaction_id,
    items_json := itemsRepr data.products,
    status := data.status,
    original_invoice_no := data.original_invoice_no,
    hash := compute_hash md5_12 data.customer_name
              (itemsRepr data.products) data.date }

/-- Model of `InvoiceService.save_invoice`: computes the duplicate
warning from the hash lookup, then appends the assembled row; the save
succeeds and appends whether or not a duplicate was found. -/
def save_invoice (md5_12 : String → String) (store : List InvoiceRecord)
    (data : InvoiceData) : (Bool × Option String) × List InvoiceRecord :=
  let h := compute_hash md5_12 data.customer_name
             (itemsRepr data.products) data.date
  let warning := match detect_duplicate store h with
    | some existing =>
        some ("Possible duplicate of invoice " ++ existing.invoice_number)
    | none => none
  ((true, warning), store ++ [invoice_row md5_12 data])

/-- Model of `InvoiceService.get_invoice`: first row carrying the
requested invoice number (the Python function additionally attaches the
deserialized `products` list, which the return flow never reads). -/
def get_invoice (store : List InvoiceRecord) (invoice_number : String) :
    Option InvoiceRecord :=
  store.find? (fun r => r.invoice_number == invoice_number)

/-- Return invoice number
`f"RET-{original.replace('#','').replace('-','_')}"`. -/
def returnNumber (original_invoice_no : String) : String :=
  "RET-" ++ ((original_invoice_no.replace "#" "").replace "-" "_")

/-- Input dictionary `InvoiceService.create_return_invoice` builds for
`save_invoice`: negative subtotal `sum(-abs(price * qty))`, zero
discount and delivery, grand total equal to the subtotal, payment
method fixed to `Refund`, and the original invoice number attached. -/
def return_data (today : String) (original : InvoiceRecord)
    (original_invoice_no : String) (return_items : List Item) : InvoiceData :=
  let subtotal : ℚ :=
    (return_items.map (fun it => -(|it.price * it.qty|))).sum
  { invoice_number := returnNumber original_invoice_no,
    date := today,
    customer_name := original.customer_name,
    customer_phone := original.customer_phone,
    customer_address := original.customer_address,
    subtotal := subtotal,
    discount := 0,
    delivery := 0,
    grand_total := subtotal,
    payment_method := "Refund",
    transaction_id := "",
    products := return_items,
    status := "PAID",
    original_invoice_no := original_invoice_no }

/-- Model of `InvoiceService.create_return_invoice`: fails (store
untouched) when the original invoice is absent, otherwise saves the
synthesized return data and reports the return invoice number.
`today` stands for `datetime.now().strftime('%m/%d/%Y')`. -/
def create_return_invoice (md5_12 : String → String) (today : String)
    (store : List InvoiceRecord) (original_invoice_no : String)
    (return_items : List Item) : (Bool × String) × List InvoiceRecord :=
  match get_invoice store original_invoice_no with
  | none => ((false, "Original invoice not found"), store)
  | some original =>
      let rd := return_data today original original_invoice_no return_items
      let res := save_invoice md5_12 store rd
      ((res.1.1, if res.1.1 then returnNumber original_invoice_no
                 else (res.1.2).getD ""), res.2)

/-! ## Next invoice number (`InvoiceService.get_next_invoice_number`) -/

/-- Splitting a character list on a single separator character, the
semantics of Python `str.split(sep)` for a one-character separator:
no collapsing of empty fields, and the empty string splits into one
empty field. -/
def splitChars (sep : Char) : List Char → List (List Char)
  | [] => [[]]
  | c :: rest =>
      if c = sep then [] :: splitChars sep rest
      else
        match splitChars sep rest with
        | [] => [[c]]
        | g :: gs => (c :: g) :: gs

/-- Python `s.split(sep)` for a one-character separator. -/
def pySplit (s : String) (sep : Char) : List String :=
  (splitChars sep s.toList).map (fun cs => String.mk cs)

/-- Whitespace stripping from both ends, the semantics of the implicit
`strip` Python's `int` applies to its string argument (restricted to
the ASCII whitespace characters). -/
def trimChars (cs : List Char) : List Char :=
  ((cs.dropWhile Char.isWhitespace).reverse.dropWhile Char.isWhitespace).reverse

/-- Digit/underscore shape accepted by Python's `int` after an optional
sign: every character a digit or an underscore, never two underscores
in a row and never an underscore last (an underscore first is ruled out
by the caller's leading-digit check). -/
def digitsOk : List Char → Bool
  | [] => true
  | [c] => c.isDigit
  | c :: d :: rest =>
      if c == '_' then d.isDigit && digitsOk (d :: rest)
      else c.isDigit && digitsOk (d :: rest)

/-- Numeric value of a digit list in base 10. -/
def digitsVal (cs : List Char) : Nat :=
  cs.foldl (fun a c => a * 10 + (c.toNat - 48)) 0

/-- Model of Python `int(s)` on a decimal string: strips surrounding
whitespace, accepts one optional `+`/`-` sign followed by ASCII digits
with single internal underscores, and fails (raising `ValueError` in
Python, `none` here) on anything else. -/
def pyInt? (s : String) : Option Int :=
  let cs := trimChars s.toList
  let signed : Bool × List Char :=
    match cs with
    | '+' :: rest => (false, rest)
    | '-' :: rest => (true, rest)
    | _ => (false, cs)
  match signed.2 with
  | [] => none
  | c :: _ =>
      if c.isDigit && digitsOk signed.2 then
        let v : Int := (digitsVal (signed.2.filter (fun ch => ch != '_')) : Nat)
        some (if signed.1 then -v else v)
      else none

/-- Python `f"{n:03d}"`: decimal rendering padded with zeros to an
overall width of 3, the sign of a negative number counting toward the
width. -/
def formatSeq3 (n : Int) : String :=
  if n < 0 then "-" ++ padNum 2 n.natAbs else padNum 3 n.toNat

/-- Model of `InvoiceService.get_next_invoice_number` with the ambient
`datetime.now().year` passed as `currentYear`: keeps the rows with a
non-empty invoice number, takes the last one, splits it on `-` into
exactly `PREFIX-YEAR-SEQ`, and renders `PREFIX-YEAR-(SEQ+1)` zero
padded to 3 digits; an empty store or any parse failure yields
`#SC-<currentYear>-001`. -/
def get_next_invoice_number (currentYear : Nat)
    (store : List InvoiceRecord) : String :=
  let nonEmpty := store.filter (fun r => r.invoice_number ≠ "")
  match nonEmpty.getLast? with
  | none => "#SC-" ++ toString currentYear ++ "-001"
  | some last =>
      match pySplit last.invoice_number '-' with
      | [pfx, year, num] =>
          match pyInt? num with
          | some n => pfx ++ "-" ++ year ++ "-" ++ formatSeq3 (n + 1)
          | none => "#SC-" ++ toString currentYear ++ "-001"
      | _ => "#SC-" ++ toString currentYear ++ "-001"

/-! ## Schema migration (`BaseService.migrate_schema`) -/

/-- Value stored in one cell of a tabular file: a string, an exact
numeric value, or a boolean (the three kinds of defaults the services
migrate with). -/
inductive CellV where
  | s : String → CellV
  | q : ℚ → CellV
  | b : Bool → CellV
deriving DecidableEq, Repr

/-- In-memory image of a CSV file as pandas holds it: the header and
one cell list per data row (cells listed in header order). -/
structure Table where
  cols : List String
  rows : List (List CellV)
deriving DecidableEq, Repr

/-- One step of the migration loop: `df[col] = default` executed only
when `col` is missing, which appends the column after the existing ones
and broadcasts the default into every row. -/
def addCol (t : Table) (name : String) (default : CellV) : Table :=
  if name ∈ t.cols then t
  else { cols := t.cols ++ [name], rows := t.rows.map (fun r => r ++ [default]) }

/-- Model of `BaseService.migrate_schema` on the table contents: adds
each still-missing column of `newCols` with its default value (the
backup snapshot taken beforehand does not affect the file's content
and is not modelled). -/
def migrate_schema (t : Table) (newCols : List (String × CellV)) : Table :=
  newCols.foldl (fun acc nc => addCol acc nc.1 nc.2) t

/-! ## Expense store (`services/expense_service.py`) -/

/-- Row of `expenses.csv` as `delete_expense_by_fields` sees it.  The
`amount` field holds the string the comparison works on: the code
compares `df['amount'].astype(str)` with `str(row_data.get('amount'))`,
so both sides are modelled post-conversion. -/
structure ExpenseRow where
  expense_id : String
  date : String
  category : String
  amount : String
  description : String
  related_product : String
  allocated : Bool
deriving DecidableEq, Repr

/-- Mask of `delete_expense_by_fields`: exact equality on the four
visible fields `(date, category, amount-as-string, description)`. -/
def expenseFieldsMatch (date category amount description : String)
    (r : ExpenseRow) : Bool :=
  r.date == date && r.category == category &&
  r.amount == amount && r.description == description

/-- Model of `ExpenseService.delete_expense_by_fields`: keeps exactly
the rows outside the mask (`df[~mask]`) — every structurally matching
row is dropped — and reports `True`. -/
def delete_expense_by_fields (rows : List ExpenseRow)
    (date category amount description : String) : Bool × List ExpenseRow :=
  (true,
    rows.filter (fun r => !(expenseFieldsMatch date category amount description r)))

/-! ## Generic lemmas about mask-style list updates -/

/-- Finding under a predicate commutes with mapping a function that
does not disturb the predicate. -/
theorem find?_map_pred_inv {α : Type} (p : α → Bool) (g : α → α)
    (hg : ∀ a, p (g a) = p a) (l : List α) :
    (l.map g).find? p = (l.find? p).map g := by
  rw [List.find?_map, show p ∘ g = p from funext hg]

/-- Filtering under a predicate commutes with mapping a function that
does not disturb the predicate. -/
theorem filter_map_pred_inv {α : Type} (p : α → Bool) (g : α → α)
    (hg : ∀ a, p (g a) = p a) (l : List α) :
    (l.map g).filter p = (l.filter p).map g := by
  rw [List.filter_map, show p ∘ g = p from funext hg]

/-- Mapping a function that fixes every element of a list is the
identity on that list. -/
theorem map_eq_self_of_fixes {α : Type} (l : List α) (f : α → α)
    (h : ∀ a ∈ l, f a = a) : l.map f = l := by
  induction l with
  | nil => rfl
  | cons a t ih =>
      simp only [List.map_cons, h a (List.mem_cons_self a t)]
      exact congrArg (a :: ·) (ih fun b hb => h b (List.mem_cons_of_mem a hb))

/-- Splitting a list's length along a boolean mask. -/
theorem length_filter_partition {α : Type} (p : α → Bool) (l : List α) :
    l.length = (l.filter p).length + (l.filter (fun a => !(p a))).length := by
  induction l with
  | nil => rfl
  | cons a t ih =>
      by_cases ha : p a <;> simp [List.filter_cons, ha, ih] <;> omega

/-! ## Lemmas about `reduce_stock` -/

/-- Updating stock and sold quantity leaves the `(name, size)` mask
unchanged on every row. -/
theorem keyMatch_stock_update (name size : String) (ns sq : Int) (r : Product) :
    keyMatch name size
      (if keyMatch name size r then
        { r with stock := ns, sold_quantity := sq } else r) =
    keyMatch name size r := by
  by_cases h : keyMatch name size r <;> simp [h] <;> exact h

/-- One `reduce_stock` call keeps every stock value non-negative, for
any requested quantity: the matched rows are floored at zero and the
others are untouched. -/
theorem reduce_stock_nonneg (rows : List Product) (name size : String)
    (quantity : Int) (h : ∀ r ∈ rows, 0 ≤ r.stock) :
    ∀ r ∈ (reduce_stock rows name size quantity).2, 0 ≤ r.stock := by
  intro r' hr'
  unfold reduce_stock at hr'
  cases hf : rows.find? (keyMatch name size) with
  | none => rw [hf] at hr'; exact h r' hr'
  | some first =>
      rw [hf] at hr'
      simp only [List.mem_map] at hr'
      obtain ⟨r, hr, rfl⟩ := hr'
      by_cases hk : keyMatch name size r
      · simp only [hk, if_true]
        exact le_max_left 0 _
      · simp only [hk, if_false, Bool.false_eq_true]
        exact h r hr

/-- Claim C2, sequence part: any sequence of `reduce_stock` calls
preserves non-negativity of every stock value. -/
theorem applyReduceCalls_nonneg (rows : List Product)
    (calls : List (String × String × Int)) (h : ∀ r ∈ rows, 0 ≤ r.stock) :
    ∀ r ∈ applyReduceCalls rows calls, 0 ≤ r.stock := by
  induction calls generalizing rows with
  | nil => exact h
  | cons c rest ih =>
      exact ih _ (reduce_stock_nonneg rows c.1 c.2.1 c.2.2 h)

/-- Property of claim C2 at one store and one call sequence. -/
def StockFloorProp (rows : List Product)
    (calls : List (String × String × Int)) : Prop :=
  (∀ r ∈ applyReduceCalls rows calls, 0 ≤ r.stock) ∧
  (∀ name size quantity, rows.find? (keyMatch name size) = none →
     reduce_stock rows name size quantity = ((false, 0), rows)) ∧
  (∀ name size quantity first, rows.find? (keyMatch name size) = some first →
     (reduce_stock rows name size quantity).1 =
       (true, max 0 (first.stock - quantity)) ∧
     ((reduce_stock rows name size quantity).2).find? (keyMatch name size) =
       some { first with stock := max 0 (first.stock - quantity),
                         sold_quantity := first.sold_quantity + quantity })

/-- Claim C2: starting from non-negative stocks, every sequence of
`reduce_stock(name, size, qty)` calls with `qty ≥ 0` keeps every row's
stock non-negative; a matched call floors the stock at
`max 0 (stock - qty)` while adding `qty` to the matched row's sold
quantity, and an unmatched call returns `(false, 0)` and leaves the
store unchanged. -/
theorem reduce_stock_c2 (rows : List Product)
    (calls : List (String × String × Int))
    (h0 : ∀ r ∈ rows, 0 ≤ r.stock) (hq : ∀ c ∈ calls, 0 ≤ c.2.2) :
    StockFloorProp rows calls := by
  refine ⟨applyReduceCalls_nonneg rows calls h0, ?_, ?_⟩
  · intro name size quantity hf
    unfold reduce_stock
    rw [hf]
  · intro name size quantity first hf
    have hk : keyMatch name size first = true := List.find?_some hf
    unfold reduce_stock
    rw [hf]
    refine ⟨rfl, ?_⟩
    rw [find?_map_pred_inv _ _ (keyMatch_stock_update name size _ _) rows, hf]
    simp [hk]

/-- Witness for claim C2 at the spec's scenario store: one `Air Max`
size-42 row with stock 10, calls requesting 5 and then 15 units. -/
theorem reduce_stock_c2_witness :
    StockFloorProp
      [{ product_id := "SC-SKU-00001", name := "Air Max", description := "",
         size := "42", price := 5000, buying_price := 3000, stock := 10,
         added_date := "2025-01-01", sold_quantity := 0 }]
      [("Air Max", "42", 5), ("Air Max", "42", 15)] :=
  reduce_stock_c2 _ _ (by decide) (by decide)

/-! ## Claim C10: `delete_product` -/

/-- Claim C10: `delete_product` reports `true` for every `product_id`,
and when no stored row carries that id the store is left unchanged —
absence of the key is never signalled as a failure. -/
theorem delete_product_c10 (rows : List Product) (pid : String) :
    (delete_product rows pid).1 = true ∧
    (rows.find? (fun r => r.product_id == pid) = none →
      (delete_product rows pid).2 = rows) := by
  refine ⟨rfl, fun hf => ?_⟩
  have hall := List.find?_eq_none.mp hf
  unfold delete_product
  simp only
  exact List.filter_eq_self.mpr fun r hr => by
    simpa [bne] using hall r hr

/-- Witness for claim C10: deleting an id absent from a one-row store
succeeds and changes nothing. -/
theorem delete_product_c10_witness :
    (delete_product
      [{ product_id := "SC-SKU-00001", name := "Air Max", description := "",
         size := "42", price := 5000, buying_price := 3000, stock := 10,
         added_date := "2025-01-01", sold_quantity := 0 }] "SC-SKU-99999").1 = true ∧
    (([{ product_id := "SC-SKU-00001", name := "Air Max", description := "",
         size := "42", price := 5000, buying_price := 3000, stock := 10,
         added_date := "2025-01-01", sold_quantity := 0 }] :
        List Product).find? (fun r => r.product_id == "SC-SKU-99999") = none →
      (delete_product
        [{ product_id := "SC-SKU-00001", name := "Air Max", description := "",
           size := "42", price := 5000, buying_price := 3000, stock := 10,
           added_date := "2025-01-01", sold_quantity := 0 }] "SC-SKU-99999").2 =
        [{ product_id := "SC-SKU-00001", name := "Air Max", description := "",
           size := "42", price := 5000, buying_price := 3000, stock := 10,
           added_date := "2025-01-01", sold_quantity := 0 }]) :=
  delete_product_c10 _ _

/-! ## Claim C8: `delete_expense_by_fields` -/

/-- Claim C8: legacy deletion by field match removes every row whose
`(date, category, amount, description)` tuple equals the given one,
not only the first: the result is exactly the non-matching rows, no
matching row survives, and the number of removed rows is the number
`n` of matching rows in the store. -/
theorem delete_expense_by_fields_c8 (rows : List ExpenseRow)
    (date category amount descr : String) :
    (delete_expense_by_fields rows date category amount descr).1 = true ∧
    (delete_expense_by_fields rows date category amount descr).2 =
      rows.filter (fun r => !(expenseFieldsMatch date category amount descr r)) ∧
    (∀ r ∈ (delete_expense_by_fields rows date category amount descr).2,
      expenseFieldsMatch date category amount descr r = false) ∧
    rows.length =
      (delete_expense_by_fields rows date category amount descr).2.length +
        (rows.filter (expenseFieldsMatch date category amount descr)).length := by
  refine ⟨rfl, rfl, ?_, ?_⟩
  · intro r hr
    have := List.of_mem_filter hr
    simpa using this
  · have := length_filter_partition
      (expenseFieldsMatch date category amount descr) rows
    unfold delete_expense_by_fields
    simp only
    omega

/-- Witness for claim C8: a store holding three copies of the same
expense tuple and one other row loses all three copies in one call. -/
theorem delete_expense_by_fields_c8_witness :
    (delete_expense_by_fields
      [{ expense_id := "EXP-00001", date := "01/02/2025", category := "Courier",
         amount := "120.0", description := "delivery run", related_product := "",
         allocated := false },
       { expense_id := "EXP-00002", date := "01/02/2025", category := "Courier",
         amount := "120.0", description := "delivery run", related_product := "",
         allocated := false },
       { expense_id := "EXP-00003", date := "01/03/2025", category := "Other",
         amount := "50.0", description := "tape", related_product := "",
         allocated := false },
       { expense_id := "EXP-00004", date := "01/02/2025", category := "Courier",
         amount := "120.0", description := "delivery run", related_product := "",
         allocated := false }] "01/02/2025" "Courier" "120.0" "delivery run").2 =
      [{ expense_id := "EXP-00003", date := "01/03/2025", category := "Other",
         amount := "50.0", description := "tape", related_product := "",
         allocated := false }] := by
  have h := delete_expense_by_fields_c8
    [{ expense_id := "EXP-00001", date := "01/02/2025", category := "Courier",
       amount := "120.0", description := "delivery run", related_product := "",
       allocated := false },
     { expense_id := "EXP-00002", date := "01/02/2025", category := "Courier",
       amount := "120.0", description := "delivery run", related_product := "",
       allocated := false },
     { expense_id := "EXP-00003", date := "01/03/2025", category := "Other",
       amount := "50.0", description := "tape", related_product := "",
       allocated := false },
     { expense_id := "EXP-00004", date := "01/02/2025", category := "Courier",
       amount := "120.0", description := "delivery run", related_product := "",
       allocated := false }] "01/02/2025" "Courier" "120.0" "delivery run"
  rw [h.2.1]
  decide

/-! ## Claim C3: `get_profit_by_sku` -/

/-- Zero-price inventory row with a non-zero buying price, exhibiting
the infinite margin. -/
def zeroPriceRow : Product :=
  { product_id := "SC-SKU-00001", name := "Promo Tee", description := "",
    size := "42", price := 0, buying_price := 5, stock := 1,
    added_date := "2025-01-01", sold_quantity := 3 }

/-- Counterexample to claim C3 as stated: on a row with price 0 and
buying price 5 the margin is negative infinity, not 0 — `fillna(0)`
replaces only the `nan` produced by `0/0`, not the infinity produced by
dividing a non-zero profit by zero. -/
theorem profit_by_sku_c3_counterexample :
    (get_profit_by_sku [zeroPriceRow]).map (fun rec => rec.margin_pct) =
      [PFloat.inf false] ∧
    zeroPriceRow.price = 0 ∧
    PFloat.inf false ≠ PFloat.fin 0 := by
  refine ⟨?_, rfl, by decide⟩
  show [fillna0 (pscale100 (pdiv (0 - 5 : ℚ) 0))] = [PFloat.inf false]
  norm_num [pdiv, pscale100, fillna0]

/-- Claim C3 as amended: each profit record satisfies
`unit_profit = price - buying_price` and
`total_profit = unit_profit * sold_quantity`; for a non-zero price the
margin is the finite value `unit_profit / price * 100`; the operation
never faults on a zero price, but the margin of a zero-price row is 0
only when the buying price is also 0 (the `0/0 = nan` case caught by
`fillna(0)`), and is a signed infinity otherwise. -/
theorem profit_by_sku_c3 (rows : List Product) :
    ∀ rec ∈ get_profit_by_sku rows,
      rec.unit_profit = rec.price - rec.buying_price ∧
      rec.total_profit = rec.unit_profit * (rec.sold_quantity : ℚ) ∧
      (rec.price ≠ 0 →
        rec.margin_pct = PFloat.fin (rec.unit_profit / rec.price * 100)) ∧
      (rec.price = 0 → rec.buying_price = 0 → rec.margin_pct = PFloat.fin 0) ∧
      (rec.price = 0 → rec.buying_price ≠ 0 →
        rec.margin_pct = PFloat.inf (decide (rec.buying_price < 0))) := by
  intro rec hrec
  simp only [get_profit_by_sku, List.mem_map] at hrec
  obtain ⟨r, hr, rfl⟩ := hrec
  dsimp only
  refine ⟨rfl, rfl, ?_, ?_, ?_⟩
  · intro hp
    simp [pdiv, pscale100, fillna0, hp]
  · intro hp hb
    simp [pdiv, pscale100, fillna0, hp, hb]
  · intro hp hb
    have hunit : (0 : ℚ) < r.price - r.buying_price ↔ r.buying_price < 0 := by
      rw [hp]; constructor <;> intro h <;> linarith
    by_cases hneg : r.buying_price < 0
    · simp [pdiv, pscale100, fillna0, hp, sub_eq_zero, hb, Ne.symm hb,
        hunit.mpr hneg, hneg]
    · have : ¬ (0 : ℚ) < r.price - r.buying_price := fun h => hneg (hunit.mp h)
      simp [pdiv, pscale100, fillna0, hp, sub_eq_zero, hb, Ne.symm hb, this, hneg]

/-- Profit record computed for the zero-price row, spelled with its
defining expressions so that it is definitionally the element of
`get_profit_by_sku [zeroPriceRow]`. -/
def c3Rec : ProfitRec :=
  { product_id := "SC-SKU-00001", name := "Promo Tee", size := "42",
    price := 0, buying_price := 5, sold_quantity := 3,
    unit_profit := (0 : ℚ) - 5,
    total_profit := ((0 : ℚ) - 5) * ((3 : Int) : ℚ),
    margin_pct := fillna0 (pscale100 (pdiv ((0 : ℚ) - 5) 0)) }

/-- Witness for claim C3 at the record the zero-price row produces. -/
theorem profit_by_sku_c3_witness :
    c3Rec.unit_profit = c3Rec.price - c3Rec.buying_price ∧
    c3Rec.total_profit = c3Rec.unit_profit * ((c3Rec.sold_quantity : Int) : ℚ) ∧
    (c3Rec.price ≠ 0 →
      c3Rec.margin_pct = PFloat.fin (c3Rec.unit_profit / c3Rec.price * 100)) ∧
    (c3Rec.price = 0 → c3Rec.buying_price = 0 →
      c3Rec.margin_pct = PFloat.fin 0) ∧
    (c3Rec.price = 0 → c3Rec.buying_price ≠ 0 →
      c3Rec.margin_pct = PFloat.inf (decide (c3Rec.buying_price < 0))) :=
  profit_by_sku_c3 [zeroPriceRow] c3Rec (List.mem_singleton.mpr rfl)

/-! ## Claim C7: `migrate_schema` -/

/-- Columns already present survive every migration step. -/
theorem migrate_schema_mem_cols (t : Table) (nc : List (String × CellV))
    (c : String) (h : c ∈ t.cols) : c ∈ (migrate_schema t nc).cols := by
  induction nc generalizing t with
  | nil => exact h
  | cons x rest ih =>
      show c ∈ (migrate_schema (addCol t x.1 x.2) rest).cols
      refine ih _ ?_
      unfold addCol
      by_cases hc : x.1 ∈ t.cols <;> simp [hc, List.mem_append, h]

/-- Every column named by the migration list is present afterwards. -/
theorem migrate_schema_names_present (t : Table) (nc : List (String × CellV)) :
    ∀ c ∈ nc, c.1 ∈ (migrate_schema t nc).cols := by
  induction nc generalizing t with
  | nil => intro c hc; cases hc
  | cons x rest ih =>
      intro c hc
      rcases List.mem_cons.mp hc with rfl | hc
      · refine migrate_schema_mem_cols _ rest c.1 ?_
        unfold addCol
        by_cases h : c.1 ∈ t.cols <;> simp [h]
      · exact ih (addCol t x.1 x.2) c hc

/-- Migrating a table that already has every listed column is the
identity. -/
theorem migrate_schema_fixed (t : Table) (nc : List (String × CellV))
    (h : ∀ c ∈ nc, c.1 ∈ t.cols) : migrate_schema t nc = t := by
  induction nc with
  | nil => rfl
  | cons x rest ih =>
      show migrate_schema (addCol t x.1 x.2) rest = t
      have hx : x.1 ∈ t.cols := h x (List.mem_cons_self x rest)
      rw [show addCol t x.1 x.2 = t by unfold addCol; simp [hx]]
      exact ih fun c hc => h c (List.mem_cons_of_mem x hc)

/-- Migration only appends columns: the new header is the old one
followed by the names of the added columns, and every row is the old
row followed by the corresponding defaults. -/
theorem migrate_schema_additive (t : Table) (nc : List (String × CellV)) :
    ∃ added : List (String × CellV),
      (∀ a ∈ added, a ∈ nc ∧ a.1 ∉ t.cols) ∧
      (migrate_schema t nc).cols = t.cols ++ added.map Prod.fst ∧
      (migrate_schema t nc).rows =
        t.rows.map (fun r => r ++ added.map Prod.snd) := by
  induction nc generalizing t with
  | nil =>
      exact ⟨[], by simp, by simp [migrate_schema], by simp [migrate_schema]⟩
  | cons x rest ih =>
      show ∃ added, _ ∧ (migrate_schema (addCol t x.1 x.2) rest).cols = _ ∧
        (migrate_schema (addCol t x.1 x.2) rest).rows = _
      by_cases hc : x.1 ∈ t.cols
      · rw [show addCol t x.1 x.2 = t by unfold addCol; simp [hc]]
        obtain ⟨added, hmem, hcols, hrows⟩ := ih t
        exact ⟨added, fun a ha =>
          ⟨List.mem_cons_of_mem x (hmem a ha).1, (hmem a ha).2⟩, hcols, hrows⟩
      · rw [show addCol t x.1 x.2 =
              { cols := t.cols ++ [x.1],
                rows := t.rows.map (fun r => r ++ [x.2]) } by
            unfold addCol; simp [hc]]
        obtain ⟨added, hmem, hcols, hrows⟩ :=
          ih { cols := t.cols ++ [x.1], rows := t.rows.map (fun r => r ++ [x.2]) }
        refine ⟨x :: added, ?_, ?_, ?_⟩
        · intro a ha
          rcases List.mem_cons.mp ha with rfl | ha
          · exact ⟨List.mem_cons_self a rest, hc⟩
          · refine ⟨List.mem_cons_of_mem x (hmem a ha).1, fun hmem' => ?_⟩
            exact (hmem a ha).2 (by simp [hmem'])
        · simpa [List.append_assoc] using hcols
        · rw [hrows]
          simp [List.map_map, Function.comp, List.append_assoc]

/-- Claim C7: `migrate_schema` is idempotent and purely additive — a
second run with the same column list is the identity on the result of
the first, the new header extends the old one on the right by the
added column names (each taken from the migration list and previously
missing), and each row is the old row extended by the corresponding
defaults; no pre-existing column, row, or cell is altered or dropped. -/
theorem migrate_schema_c7 (t : Table) (nc : List (String × CellV)) :
    migrate_schema (migrate_schema t nc) nc = migrate_schema t nc ∧
    (∃ added : List (String × CellV),
      (∀ a ∈ added, a ∈ nc ∧ a.1 ∉ t.cols) ∧
      (migrate_schema t nc).cols = t.cols ++ added.map Prod.fst ∧
      (migrate_schema t nc).rows =
        t.rows.map (fun r => r ++ added.map Prod.snd)) ∧
    (∀ c ∈ nc, c.1 ∈ (migrate_schema t nc).cols) ∧
    (migrate_schema t nc).rows.length = t.rows.length := by
  obtain ⟨added, hmem, hcols, hrows⟩ := migrate_schema_additive t nc
  refine ⟨migrate_schema_fixed _ nc (migrate_schema_names_present t nc), ?_, ?_, ?_⟩
  · exact ⟨added, hmem, hcols, hrows⟩
  · exact migrate_schema_names_present t nc
  · rw [hrows, List.length_map]

/-- Witness for claim C7 at a concrete table: one pre-existing column
and row, one column to add and one already present. -/
theorem migrate_schema_c7_witness :
    migrate_schema
        (migrate_schema { cols := ["date"], rows := [[CellV.s "01/02/2025"]] }
          [("status", CellV.s "PAID"), ("date", CellV.s "")])
        [("status", CellV.s "PAID"), ("date", CellV.s "")] =
      migrate_schema { cols := ["date"], rows := [[CellV.s "01/02/2025"]] }
        [("status", CellV.s "PAID"), ("date", CellV.s "")] ∧
    (∃ added : List (String × CellV),
      (∀ a ∈ added,
        a ∈ [("status", CellV.s "PAID"), ("date", CellV.s "")] ∧
        a.1 ∉ ["date"]) ∧
      (migrate_schema { cols := ["date"], rows := [[CellV.s "01/02/2025"]] }
        [("status", CellV.s "PAID"), ("date", CellV.s "")]).cols =
        ["date"] ++ added.map Prod.fst ∧
      (migrate_schema { cols := ["date"], rows := [[CellV.s "01/02/2025"]] }
        [("status", CellV.s "PAID"), ("date", CellV.s "")]).rows =
        [[CellV.s "01/02/2025"]].map (fun r => r ++ added.map Prod.snd)) ∧
    (∀ c ∈ [("status", CellV.s "PAID"), ("date", CellV.s "")],
      c.1 ∈ (migrate_schema { cols := ["date"], rows := [[CellV.s "01/02/2025"]] }
        [("status", CellV.s "PAID"), ("date", CellV.s "")]).cols) ∧
    (migrate_schema { cols := ["date"], rows := [[CellV.s "01/02/2025"]] }
      [("status", CellV.s "PAID"), ("date", CellV.s "")]).rows.length =
      [[CellV.s "01/02/2025"]].length :=
  migrate_schema_c7 _ _

/-! ## Claim C1: invoice arithmetic on saved records -/

/-- Invoice data whose caller-supplied totals contradict the claimed
equations: subtotal 5 but grand total 100, no line items. -/
def c1BadData : InvoiceData :=
  { invoice_number := "#SC-2025-099", date := "01/01/2025",
    customer_name := "B", customer_phone := "", customer_address := "",
    subtotal := 5, discount := 0, delivery := 0, grand_total := 100,
    payment_method := "Cash", transaction_id := "", products := [],
    status := "PAID", original_invoice_no := "" }

/-- Counterexample to claim C1 as stated: `save_invoice` happily
persists a record whose grand total is not
`subtotal - discount + delivery` and whose subtotal is not the sum of
its line items, because it stores the caller's fields verbatim. -/
theorem invoice_arithmetic_c1_counterexample :
    (save_invoice (fun s => s) [] c1BadData).1.1 = true ∧
    (save_invoice (fun s => s) [] c1BadData).2 =
      [invoice_row (fun s => s) c1BadData] ∧
    (invoice_row (fun s => s) c1BadData).grand_total ≠
      (invoice_row (fun s => s) c1BadData).subtotal -
        (invoice_row (fun s => s) c1BadData).discount +
        (invoice_row (fun s => s) c1BadData).delivery ∧
    (invoice_row (fun s => s) c1BadData).subtotal ≠
      (c1BadData.products.map (fun it => it.qty * it.price)).sum := by
  refine ⟨rfl, rfl, ?_, ?_⟩ <;> norm_num [invoice_row, c1BadData]

/-- Sum of `-(|price * qty|)` over items with non-negative price and
quantity is the negated sum of `qty * price`. -/
theorem neg_abs_sum_eq (items : List Item)
    (h : ∀ it ∈ items, 0 ≤ it.price ∧ 0 ≤ it.qty) :
    (items.map (fun it => -(|it.price * it.qty|))).sum =
      -((items.map (fun it => it.qty * it.price)).sum) := by
  induction items with
  | nil => simp
  | cons it rest ih =>
      have hit := h it (List.mem_cons_self it rest)
      have habs : |it.price * it.qty| = it.qty * it.price := by
        rw [abs_of_nonneg (mul_nonneg hit.1 hit.2)]; ring
      simp only [List.map_cons, List.sum_cons, habs,
        ih fun x hx => h x (List.mem_cons_of_mem it hx)]
      ring

/-- Property of claim C1 (amended) at one store, save input, and
return request. -/
def InvoiceArithmeticProp (md5_12 : String → String) (today : String)
    (store : List InvoiceRecord) (d : InvoiceData) : Prop :=
  ((invoice_row md5_12 d).subtotal = d.subtotal ∧
   (invoice_row md5_12 d).discount = d.discount ∧
   (invoice_row md5_12 d).delivery = d.delivery ∧
   (invoice_row md5_12 d).grand_total = d.grand_total ∧
   (save_invoice md5_12 store d).2 = store ++ [invoice_row md5_12 d] ∧
   (d.grand_total = d.subtotal - d.discount + d.delivery →
     (invoice_row md5_12 d).grand_total =
       (invoice_row md5_12 d).subtotal - (invoice_row md5_12 d).discount +
         (invoice_row md5_12 d).delivery)) ∧
  (∀ n items original, get_invoice store n = some original →
    (create_return_invoice md5_12 today store n items).2 =
      store ++ [invoice_row md5_12 (return_data today original n items)] ∧
    (invoice_row md5_12 (return_data today original n items)).grand_total =
      (invoice_row md5_12 (return_data today original n items)).subtotal -
        (invoice_row md5_12 (return_data today original n items)).discount +
        (invoice_row md5_12 (return_data today original n items)).delivery ∧
    (invoice_row md5_12 (return_data today original n items)).discount = 0 ∧
    (invoice_row md5_12 (return_data today original n items)).delivery = 0 ∧
    (invoice_row md5_12 (return_data today original n items)).subtotal =
      (items.map (fun it => -(|it.price * it.qty|))).sum ∧
    (invoice_row md5_12 (return_data today original n items)).original_invoice_no
      = n ∧
    ((∀ it ∈ items, 0 ≤ it.price ∧ 0 ≤ it.qty) →
      (invoice_row md5_12 (return_data today original n items)).subtotal =
        -((items.map (fun it => it.qty * it.price)).sum)))

/-- Claim C1 as amended: `save_invoice` persists the caller's
`subtotal`, `discount`, `delivery` and `grand_total` verbatim (so the
claimed equations hold of a saved record exactly when they hold of the
caller's data — the service neither recomputes nor checks them), while
`create_return_invoice` always appends a record with
`grand_total = subtotal - discount + delivery` (discount and delivery
zero) whose subtotal is the negated sum of `|price * qty|` over the
return items — the negation of the claimed item sum when items are
non-negative — and which carries the original invoice number. -/
theorem invoice_arithmetic_c1 (md5_12 : String → String) (today : String)
    (store : List InvoiceRecord) (d : InvoiceData) :
    InvoiceArithmeticProp md5_12 today store d := by
  refine ⟨⟨rfl, rfl, rfl, rfl, rfl, fun h => h⟩, ?_⟩
  intro n items original hget
  unfold create_return_invoice
  rw [hget]
  refine ⟨rfl, ?_, rfl, rfl, rfl, rfl, fun hnn => neg_abs_sum_eq items hnn⟩
  show (return_data today original n items).grand_total =
    (return_data today original n items).subtotal - 0 + 0
  rw [sub_zero, add_zero]
  rfl

/-- Witness for claim C1 at a concrete store holding one original
invoice and a one-item return against it. -/
theorem invoice_arithmetic_c1_witness :
    InvoiceArithmeticProp (fun s => s) "02/01/2025"
      [invoice_row (fun s => s) c1BadData] c1BadData :=
  invoice_arithmetic_c1 _ _ _ _

/-! ## Claim C5: duplicate detection -/

/-- Property of claim C5 at one digest function, store, and pair of
save inputs. -/
def DuplicateDetectionProp (md5_12 : String → String)
    (store : List InvoiceRecord) (d1 d2 : InvoiceData) : Prop :=
  compute_hash md5_12 d1.customer_name (itemsRepr d1.products) d1.date =
    compute_hash md5_12 d2.customer_name (itemsRepr d2.products) d2.date ∧
  (save_invoice md5_12 ((save_invoice md5_12 store d1).2) d2).1.1 = true ∧
  (∃ ex, ex ∈ (save_invoice md5_12 store d1).2 ∧
    ex.hash =
      compute_hash md5_12 d2.customer_name (itemsRepr d2.products) d2.date ∧
    (save_invoice md5_12 ((save_invoice md5_12 store d1).2) d2).1.2 =
      some ("Possible duplicate of invoice " ++ ex.invoice_number)) ∧
  (∀ w, (save_invoice md5_12 ((save_invoice md5_12 store d1).2) d2).1.2 =
      some w → w ≠ "") ∧
  (save_invoice md5_12 ((save_invoice md5_12 store d1).2) d2).2 =
    (save_invoice md5_12 store d1).2 ++ [invoice_row md5_12 d2]

/-- Claim C5: the duplicate-detection hash is a function of
`(customer_name, serialized items, date)` alone, so two invoices that
agree on those three fields get the same hash; saving the second one
after the first still succeeds and appends its row, while returning a
non-empty warning that names a stored invoice carrying the same
hash. -/
theorem save_invoice_warning_eq (md5_12 : String → String)
    (store : List InvoiceRecord) (data : InvoiceData) :
    (save_invoice md5_12 store data).1.2 =
      match detect_duplicate store (compute_hash md5_12 data.customer_name
          (itemsRepr data.products) data.date) with
      | some existing =>
          some ("Possible duplicate of invoice " ++ existing.invoice_number)
      | none => none := rfl

/-- Claim C5: the duplicate-detection hash is a function of
`(customer_name, serialized items, date)` alone, so two invoices that
agree on those three fields get the same hash; saving the second one
after the first still succeeds and appends its row, while returning a
non-empty warning that names a stored invoice carrying the same
hash. -/
theorem duplicate_detection_c5 (md5_12 : String → String)
    (store : List InvoiceRecord) (d1 d2 : InvoiceData)
    (hc : d1.customer_name = d2.customer_name)
    (hp : d1.products = d2.products) (hd : d1.date = d2.date) :
    DuplicateDetectionProp md5_12 store d1 d2 := by
  have hhash : compute_hash md5_12 d1.customer_name (itemsRepr d1.products)
      d1.date =
      compute_hash md5_12 d2.customer_name (itemsRepr d2.products) d2.date := by
    rw [hc, hp, hd]
  have hmem : invoice_row md5_12 d1 ∈ (save_invoice md5_12 store d1).2 :=
    List.mem_append_right store (List.mem_singleton.mpr rfl)
  have hrowhash : (invoice_row md5_12 d1).hash =
      compute_hash md5_12 d2.customer_name (itemsRepr d2.products) d2.date :=
    hhash
  refine ⟨hhash, rfl, ?_, ?_, rfl⟩
  · cases hfind : detect_duplicate ((save_invoice md5_12 store d1).2)
        (compute_hash md5_12 d2.customer_name (itemsRepr d2.products) d2.date)
      with
    | none =>
        exfalso
        have := List.find?_eq_none.mp hfind _ hmem
        simp [hrowhash] at this
    | some ex =>
        refine ⟨ex, List.mem_of_find?_eq_some hfind, ?_, ?_⟩
        · have := List.find?_some hfind
          simpa using this
        · rw [save_invoice_warning_eq, hfind]
  · intro w hw
    cases hfind : detect_duplicate ((save_invoice md5_12 store d1).2)
        (compute_hash md5_12 d2.customer_name (itemsRepr d2.products) d2.date)
      with
    | none =>
        exfalso
        have := List.find?_eq_none.mp hfind _ hmem
        simp [hrowhash] at this
    | some ex =>
        rw [save_invoice_warning_eq, hfind] at hw
        have hw2 : "Possible duplicate of invoice " ++ ex.invoice_number = w :=
          Option.some.inj hw
        intro hempty
        rw [← hw2] at hempty
        have := congrArg String.length hempty
        rw [String.length_append] at this
        simp at this
        exact absurd this.1 (by decide)

/-- Concrete invoice input for the duplicate-detection witness. -/
def c5Data : InvoiceData :=
  { invoice_number := "#SC-2025-007", date := "03/05/2025",
    customer_name := "Rahim", customer_phone := "017", customer_address := "Dhaka",
    subtotal := 5000, discount := 0, delivery := 100, grand_total := 5100,
    payment_method := "Cash", transaction_id := "",
    products := [{ name := "Air Max", size := "42", qty := 1, price := 5000 }],
    status := "PAID", original_invoice_no := "" }

/-- Witness for claim C5: saving the same concrete invoice twice into
an empty store. -/
theorem duplicate_detection_c5_witness :
    DuplicateDetectionProp (fun s => s) [] c5Data c5Data :=
  duplicate_detection_c5 (fun s => s) [] c5Data c5Data rfl rfl rfl

/-! ## Claims C4 and C9: `get_next_invoice_number` -/

/-- When the last non-empty invoice number splits into exactly three
`-`-separated fields whose final field parses as an integer, the next
number is rebuilt from those fields with the sequence incremented. -/
theorem get_next_invoice_number_parse (year : Nat)
    (store : List InvoiceRecord) (r : InvoiceRecord)
    (pfx yr num : String) (n : Int)
    (hlast : (store.filter (fun rec => rec.invoice_number ≠ "")).getLast? =
      some r)
    (hsplit : pySplit r.invoice_number '-' = [pfx, yr, num])
    (hn : pyInt? num = some n) :
    get_next_invoice_number year store =
      pfx ++ "-" ++ yr ++ "-" ++ formatSeq3 (n + 1) := by
  simp only [get_next_invoice_number, hlast, hsplit, hn]

/-- Claim C4: on an empty store the next invoice number is
`#SC-<current_year>-001`; after saving the first invoice of 2025 it is
`#SC-2025-002`; in general, when the last non-empty invoice number
splits as `PREFIX-YEAR-SEQ` with `SEQ` an integer, the result is
`PREFIX-YEAR-(SEQ+1)` zero-padded to three digits, and on any parse
failure the result resets to `#SC-<current_year>-001`. -/
theorem next_invoice_number_c4 :
    (∀ year : Nat, get_next_invoice_number year [] =
      "#SC-" ++ toString year ++ "-001") ∧
    (∀ (md5_12 : String → String) (d : InvoiceData),
      d.invoice_number = "#SC-2025-001" →
      get_next_invoice_number 2025 ((save_invoice md5_12 [] d).2) =
        "#SC-2025-002") ∧
    (∀ (year : Nat) (store : List InvoiceRecord) (r : InvoiceRecord)
       (pfx yr num : String) (n : Int),
      (store.filter (fun rec => rec.invoice_number ≠ "")).getLast? = some r →
      pySplit r.invoice_number '-' = [pfx, yr, num] →
      pyInt? num = some n →
      get_next_invoice_number year store =
        pfx ++ "-" ++ yr ++ "-" ++ formatSeq3 (n + 1)) ∧
    (∀ (year : Nat) (store : List InvoiceRecord) (r : InvoiceRecord),
      (store.filter (fun rec => rec.invoice_number ≠ "")).getLast? = some r →
      (¬ ∃ pfx yr num n, pySplit r.invoice_number '-' = [pfx, yr, num] ∧
        pyInt? num = some n) →
      get_next_invoice_number year store =
        "#SC-" ++ toString year ++ "-001") := by
  refine ⟨fun year => rfl, ?_, get_next_invoice_number_parse, ?_⟩
  · intro md5_12 d hnum
    have hinv : (invoice_row md5_12 d).invoice_number = "#SC-2025-001" := hnum
    have hcond : (decide ((invoice_row md5_12 d).invoice_number ≠ "")) = true := by
      rw [hinv]; decide
    have hlast : ((([] ++ [invoice_row md5_12 d]) :
        List InvoiceRecord).filter
          (fun rec => rec.invoice_number ≠ "")).getLast? =
        some (invoice_row md5_12 d) := by
      simp only [List.nil_append, List.filter_cons, hcond, if_true,
        List.filter_nil, List.getLast?_singleton]
    have := get_next_invoice_number_parse 2025 ([] ++ [invoice_row md5_12 d])
      (invoice_row md5_12 d) "#SC" "2025" "001" 1 hlast
      (by rw [hinv]; decide) (by decide)
    exact this.trans (by decide)
  · intro year store r hlast hfail
    simp only [get_next_invoice_number, hlast]
    rcases hsplit : pySplit r.invoice_number '-'
      with _ | ⟨a, _ | ⟨b, _ | ⟨c, tl⟩⟩⟩
    · rfl
    · rfl
    · rfl
    · cases tl with
      | nil =>
          show (match pyInt? c with
            | some n => a ++ "-" ++ b ++ "-" ++ formatSeq3 (n + 1)
            | none => "#SC-" ++ toString year ++ "-001") =
            "#SC-" ++ toString year ++ "-001"
          cases hn : pyInt? c with
          | none => rfl
          | some n => exact absurd ⟨a, b, c, n, hsplit, hn⟩ hfail
      | cons d tl' => rfl

/-- First invoice of 2025, for the next-number witness. -/
def c4Data : InvoiceData :=
  { c5Data with invoice_number := "#SC-2025-001" }

/-- Witness for claim C4: the spec's scenario — empty store in 2025,
then the store holding `#SC-2025-001`. -/
theorem next_invoice_number_c4_witness :
    get_next_invoice_number 2025 [] = "#SC-" ++ toString 2025 ++ "-001" ∧
    get_next_invoice_number 2025
      ((save_invoice (fun s => s) [] c4Data).2) = "#SC-2025-002" :=
  ⟨next_invoice_number_c4.1 2025,
   next_invoice_number_c4.2.1 (fun s => s) c4Data rfl⟩

/-- Claim C9: when the last non-empty invoice number parses as
`PREFIX-YEAR-SEQ`, the prefix and year components are reused verbatim
even when `YEAR` is not the current calendar year, and the result does
not depend on the current year at all; the current year only enters on
parse failure or an empty store. -/
theorem next_invoice_number_c9 (currentYear : Nat)
    (store : List InvoiceRecord) (r : InvoiceRecord)
    (pfx yr num : String) (n : Int)
    (hlast : (store.filter (fun rec => rec.invoice_number ≠ "")).getLast? =
      some r)
    (hsplit : pySplit r.invoice_number '-' = [pfx, yr, num])
    (hn : pyInt? num = some n)
    (hyr : yr ≠ toString currentYear) :
    get_next_invoice_number currentYear store =
      pfx ++ "-" ++ yr ++ "-" ++ formatSeq3 (n + 1) ∧
    ∀ otherYear : Nat,
      get_next_invoice_number otherYear store =
        get_next_invoice_number currentYear store := by
  have key : ∀ y : Nat, get_next_invoice_number y store =
      pfx ++ "-" ++ yr ++ "-" ++ formatSeq3 (n + 1) :=
    fun y => get_next_invoice_number_parse y store r pfx yr num n
      hlast hsplit hn
  exact ⟨key currentYear, fun otherYear => by rw [key, key]⟩

/-- Stored invoice row whose number belongs to the previous year. -/
def c9Row : InvoiceRecord :=
  { invoice_number := "#SC-2024-057", date := "12/30/2024",
    customer_name := "Karim", customer_phone := "018",
    customer_address := "Chittagong", subtotal := 4000, discount := 0,
    delivery := 0, grand_total := 4000, payment_method := "Cash",
    transaction_id := "", items_json := "[]", status := "PAID",
    original_invoice_no := "", hash := "abc" }

/-- Witness for claim C9: the store whose last invoice number is
`#SC-2024-057` yields `#SC-2024-058` in year 2025. -/
theorem next_invoice_number_c9_witness :
    get_next_invoice_number 2025 [c9Row] =
      "#SC" ++ "-" ++ "2024" ++ "-" ++ formatSeq3 (57 + 1) ∧
    ∀ otherYear : Nat,
      get_next_invoice_number otherYear [c9Row] =
        get_next_invoice_number 2025 [c9Row] :=
  next_invoice_number_c9 2025 [c9Row] c9Row "#SC" "2024" "057" 57
    (by decide) (by decide) (by decide) (by decide)

/-! ## Claim C6: `add_product` upsert idempotence and id stability -/

/-- Generated SKU ids are never the empty string. -/
theorem mkSkuId_ne_empty (n : Nat) : mkSkuId n ≠ "" := by
  intro h
  have hlen := congrArg String.length h
  rw [mkSkuId, String.length_append,
    show ("SC-SKU-" : String).length = 7 from rfl,
    show ("" : String).length = 0 from rfl] at hlen
  omega

/-- Probing via `generate_product_id` never returns the empty
string. -/
theorem generate_product_id_ne_empty (rows : List Product) :
    generate_product_id rows ≠ "" := by
  simp only [generate_product_id]
  cases hf : ((List.range (rows.length + 1)).map (fun i => mkSkuId (i + 1))).find?
      (fun c => !((rows.map (fun r => r.product_id)).contains c)) with
  | none => simpa [hf] using mkSkuId_ne_empty (rows.length + 2)
  | some c =>
      have hmem := List.mem_of_find?_eq_some hf
      obtain ⟨i, _, rfl⟩ := List.mem_map.mp hmem
      simpa [hf] using mkSkuId_ne_empty (i + 1)

/-- Conditional updates that keep `name` and `size` intact do not
disturb the `(name, size)` mask. -/
theorem keyMatch_if_update (nm sz : String) (F : Product → Product)
    (hF : ∀ r, (F r).name = r.name ∧ (F r).size = r.size) (r : Product) :
    keyMatch nm sz (if keyMatch nm sz r then F r else r) =
      keyMatch nm sz r := by
  by_cases h : keyMatch nm sz r
  · rw [if_pos h]
    unfold keyMatch
    rw [(hF r).1, (hF r).2]
  · rw [if_neg h]

/-- Shape of the `add_product` result on a key match whose first
matched row already carries a non-empty product id: the four payload
columns are overwritten on the matched rows, ids untouched. -/
theorem add_product_found_ne (rows : List Product) (p : ProductInput)
    (fst : Product)
    (hf : rows.find? (keyMatch p.name p.size) = some fst)
    (hne : fst.product_id ≠ "") :
    add_product rows p = ((true, fst.product_id),
      rows.map (fun r =>
        if keyMatch p.name p.size r then
          { r with stock := p.stock, price := p.price,
                   buying_price := p.buying_price,
                   description := p.description }
        else r)) := by
  unfold add_product
  rw [hf]
  simp [hne]

/-- Shape of the `add_product` result on a key match whose first
matched row has an empty product id: a generated id is written to the
matched rows along with the payload columns. -/
theorem add_product_found_empty (rows : List Product) (p : ProductInput)
    (fst : Product)
    (hf : rows.find? (keyMatch p.name p.size) = some fst)
    (he : fst.product_id = "") :
    add_product rows p = ((true, generate_product_id rows),
      rows.map (fun r =>
        if keyMatch p.name p.size r then
          { r with product_id := generate_product_id rows,
                   stock := p.stock, price := p.price,
                   buying_price := p.buying_price,
                   description := p.description }
        else r)) := by
  unfold add_product
  rw [hf]
  simp [he]

/-- Shape of the `add_product` result when no row matches the key: a
single new row is appended. -/
theorem add_product_not_found (rows : List Product) (p : ProductInput)
    (hf : rows.find? (keyMatch p.name p.size) = none) :
    add_product rows p =
      ((true, if p.product_id = "" then generate_product_id rows
              else p.product_id),
        rows ++ [{ product_id := if p.product_id = "" then
                     generate_product_id rows else p.product_id,
                   name := p.name, description := p.description,
                   size := p.size, price := p.price,
                   buying_price := p.buying_price, stock := p.stock,
                   added_date := p.added_date,
                   sold_quantity := p.sold_quantity }]) := by
  unfold add_product
  rw [hf]

/-- After an upsert, the key always finds a row, that row's id is
non-empty, and it carries the upserted payload columns. -/
theorem add_product_post_find (rows : List Product) (p : ProductInput) :
    ∃ fst, ((add_product rows p).2).find? (keyMatch p.name p.size) = some fst ∧
      fst.product_id ≠ "" ∧ fst.stock = p.stock ∧ fst.price = p.price ∧
      fst.buying_price = p.buying_price ∧ fst.description = p.description := by
  cases hf : rows.find? (keyMatch p.name p.size) with
  | some first =>
      have hk : keyMatch p.name p.size first = true := List.find?_some hf
      by_cases hemp : first.product_id = ""
      · rw [add_product_found_empty rows p first hf hemp]
        dsimp only
        rw [find?_map_pred_inv (keyMatch p.name p.size)
          (fun r =>
            if keyMatch p.name p.size r then
              { r with product_id := generate_product_id rows,
                       stock := p.stock, price := p.price,
                       buying_price := p.buying_price,
                       description := p.description }
            else r)
          (keyMatch_if_update p.name p.size
            (fun r =>
              { r with product_id := generate_product_id rows,
                       stock := p.stock, price := p.price,
                       buying_price := p.buying_price,
                       description := p.description })
            (fun r => ⟨rfl, rfl⟩)) rows, hf]
        simp only [Option.map_some', hk, if_true]
        exact ⟨_, rfl, generate_product_id_ne_empty rows, rfl, rfl, rfl, rfl⟩
      · rw [add_product_found_ne rows p first hf hemp]
        dsimp only
        rw [find?_map_pred_inv (keyMatch p.name p.size)
          (fun r =>
            if keyMatch p.name p.size r then
              { r with stock := p.stock, price := p.price,
                       buying_price := p.buying_price,
                       description := p.description }
            else r)
          (keyMatch_if_update p.name p.size
            (fun r =>
              { r with stock := p.stock, price := p.price,
                       buying_price := p.buying_price,
                       description := p.description })
            (fun r => ⟨rfl, rfl⟩)) rows, hf]
        simp only [Option.map_some', hk, if_true]
        exact ⟨_, rfl, hemp, rfl, rfl, rfl, rfl⟩
  | none =>
      rw [add_product_not_found rows p hf]
      dsimp only
      rw [List.find?_append, hf]
      have hknew : keyMatch p.name p.size
          { product_id := if p.product_id = "" then
              generate_product_id rows else p.product_id,
            name := p.name, description := p.description,
            size := p.size, price := p.price,
            buying_price := p.buying_price, stock := p.stock,
            added_date := p.added_date,
            sold_quantity := p.sold_quantity } = true := by
        simp [keyMatch]
      rw [Option.none_or, List.find?_cons_of_pos _ hknew]
      refine ⟨_, rfl, ?_, rfl, rfl, rfl, rfl⟩
      by_cases hp : p.product_id = ""
      · simpa [hp] using generate_product_id_ne_empty rows
      · simpa [hp] using hp

/-- Every row matching the key after an upsert carries the upserted
payload columns. -/
theorem add_product_matched_fields (rows : List Product) (p : ProductInput) :
    ∀ r ∈ (add_product rows p).2, keyMatch p.name p.size r = true →
      r.stock = p.stock ∧ r.price = p.price ∧
      r.buying_price = p.buying_price ∧ r.description = p.description := by
  intro r hr hkr
  cases hf : rows.find? (keyMatch p.name p.size) with
  | some first =>
      by_cases hemp : first.product_id = ""
      · rw [add_product_found_empty rows p first hf hemp] at hr
        simp only [List.mem_map] at hr
        obtain ⟨r0, hr0, rfl⟩ := hr
        by_cases hk0 : keyMatch p.name p.size r0
        · rw [if_pos hk0]
          exact ⟨rfl, rfl, rfl, rfl⟩
        · rw [if_neg hk0] at hkr ⊢
          exact absurd hkr hk0
      · rw [add_product_found_ne rows p first hf hemp] at hr
        simp only [List.mem_map] at hr
        obtain ⟨r0, hr0, rfl⟩ := hr
        by_cases hk0 : keyMatch p.name p.size r0
        · rw [if_pos hk0]
          exact ⟨rfl, rfl, rfl, rfl⟩
        · rw [if_neg hk0] at hkr ⊢
          exact absurd hkr hk0
  | none =>
      rw [add_product_not_found rows p hf] at hr
      rcases List.mem_append.mp hr with hmem | hmem
      · exact absurd hkr (List.find?_eq_none.mp hf r hmem)
      · rw [List.mem_singleton.mp hmem]
        exact ⟨rfl, rfl, rfl, rfl⟩

/-- Filtered length is unchanged by mapping a mask-invariant
function. -/
theorem length_filter_map_pred_inv {α : Type} (p : α → Bool) (g : α → α)
    (hg : ∀ a, p (g a) = p a) (l : List α) :
    ((l.map g).filter p).length = (l.filter p).length := by
  rw [filter_map_pred_inv p g hg l, List.length_map]

/-- Property of claim C6 at one store and upsert input. -/
def UpsertIdempotentProp (rows : List Product) (p : ProductInput) : Prop :=
  (add_product (add_product rows p).2 p).2 = (add_product rows p).2 ∧
  ((rows.filter (keyMatch p.name p.size)).length ≤ 1 →
    (((add_product (add_product rows p).2 p).2).filter
      (keyMatch p.name p.size)).length = 1) ∧
  (∀ p2 : ProductInput, p2.name = p.name → p2.size = p.size →
    ((add_product (add_product rows p).2 p2).2).map (fun r => r.product_id) =
      ((add_product rows p).2).map (fun r => r.product_id))

/-- Claim C6: upserting the identical product twice leaves the store
exactly as after the first call; starting from a store with at most
one row for the `(name, size)` key, exactly one row for that key
remains; and once the first upsert has run, any later upsert on the
same key (with any payload) changes no row's `product_id`. -/
theorem add_product_c6 (rows : List Product) (p : ProductInput) :
    UpsertIdempotentProp rows p := by
  obtain ⟨fst, hfind, hne, hstock, hprice, hbuy, hdesc⟩ :=
    add_product_post_find rows p
  have hid : (add_product (add_product rows p).2 p).2 = (add_product rows p).2 := by
    rw [add_product_found_ne ((add_product rows p).2) p fst hfind hne]
    dsimp only
    apply map_eq_self_of_fixes
    intro r hr
    by_cases hk : keyMatch p.name p.size r
    · rw [if_pos hk]
      obtain ⟨h1, h2, h3, h4⟩ := add_product_matched_fields rows p r hr hk
      rw [← h1, ← h2, ← h3, ← h4]
    · rw [if_neg hk]
  refine ⟨hid, ?_, ?_⟩
  · intro hle
    rw [hid]
    cases hf : rows.find? (keyMatch p.name p.size) with
    | some first =>
        have hk : keyMatch p.name p.size first = true := List.find?_some hf
        have hmemf : first ∈ rows.filter (keyMatch p.name p.size) :=
          List.mem_filter.mpr ⟨List.mem_of_find?_eq_some hf, hk⟩
        have hge : 0 < (rows.filter (keyMatch p.name p.size)).length :=
          List.length_pos.mpr (List.ne_nil_of_mem hmemf)
        by_cases hemp : first.product_id = ""
        · rw [add_product_found_empty rows p first hf hemp]
          dsimp only
          rw [length_filter_map_pred_inv (keyMatch p.name p.size)
            (fun r =>
              if keyMatch p.name p.size r then
                { r with product_id := generate_product_id rows,
                         stock := p.stock, price := p.price,
                         buying_price := p.buying_price,
                         description := p.description }
              else r)
            (keyMatch_if_update p.name p.size
              (fun r =>
                { r with product_id := generate_product_id rows,
                         stock := p.stock, price := p.price,
                         buying_price := p.buying_price,
                         description := p.description })
              (fun r => ⟨rfl, rfl⟩)) rows]
          omega
        · rw [add_product_found_ne rows p first hf hemp]
          dsimp only
          rw [length_filter_map_pred_inv (keyMatch p.name p.size)
            (fun r =>
              if keyMatch p.name p.size r then
                { r with stock := p.stock, price := p.price,
                         buying_price := p.buying_price,
                         description := p.description }
              else r)
            (keyMatch_if_update p.name p.size
              (fun r =>
                { r with stock := p.stock, price := p.price,
                         buying_price := p.buying_price,
                         description := p.description })
              (fun r => ⟨rfl, rfl⟩)) rows]
          omega
    | none =>
        rw [add_product_not_found rows p hf]
        dsimp only
        rw [List.filter_append]
        have hnil : rows.filter (keyMatch p.name p.size) = [] := by
          rw [List.filter_eq_nil_iff]
          exact List.find?_eq_none.mp hf
        have hknew : keyMatch p.name p.size
            { product_id := if p.product_id = "" then
                generate_product_id rows else p.product_id,
              name := p.name, description := p.description,
              size := p.size, price := p.price,
              buying_price := p.buying_price, stock := p.stock,
              added_date := p.added_date,
              sold_quantity := p.sold_quantity } = true := by
          simp [keyMatch]
        rw [hnil]
        simp [hknew]
  · intro p2 hn2 hs2
    have hfind2 : ((add_product rows p).2).find? (keyMatch p2.name p2.size) =
        some fst := by
      rw [hn2, hs2]
      exact hfind
    rw [add_product_found_ne ((add_product rows p).2) p2 fst hfind2 hne]
    dsimp only
    rw [List.map_map]
    have hcomp : ((fun r => r.product_id) ∘
        (fun r =>
          if keyMatch p2.name p2.size r then
            { r with stock := p2.stock, price := p2.price,
                     buying_price := p2.buying_price,
                     description := p2.description }
          else r)) = fun r : Product => r.product_id := by
      funext r
      by_cases hk : keyMatch p2.name p2.size r
      · simp [Function.comp, hk]
      · simp [Function.comp, hk]
    rw [hcomp]

/-- Concrete upsert input for the idempotence witness. -/
def c6Input : ProductInput :=
  { product_id := "", name := "Air Max", description := "runner",
    size := "42", price := 5000, buying_price := 3000, stock := 10,
    added_date := "2025-01-01", sold_quantity := 0 }

/-- Witness for claim C6: upserting the same concrete product twice
into an empty store. -/
theorem add_product_c6_witness : UpsertIdempotentProp [] c6Input :=
  add_product_c6 [] c6Input
